import Mathlib

/-!
# Verification of `diffuzers/inpainting.py`

A shallow embedding of the `Inpainting` dataclass from `src/diffuzers/inpainting.py`
and proofs about its operations: `__post_init__`, `__str__`, `_set_scheduler`,
`generate_image`, and `app`.

External collaborators (the diffusers pipeline, torch, PIL resampling, streamlit
widgets) are modelled as explicit data: the pipeline is an oracle function from
call arguments to produced images; PIL images are terms recording the operations
applied to them together with their pixel dimensions; widget values are inputs to
`app`. Python exceptions (the `KeyError` from a failed scheduler-dict lookup) are
modelled with `Except`, the error value carrying the missing key.
-/

namespace Diffuzers

/-- The configuration object of an external scheduler, `pipeline.scheduler.config`
in the source. Opaque external data; modelled as an abstract token. -/
structure SchedulerConfig where
  raw : Nat
deriving DecidableEq, Repr

/-- An instantiated scheduler object: the class it was built from (identified by
its `__name__`) together with the configuration it was instantiated from. -/
structure SchedulerInstance where
  cls : String
  config : SchedulerConfig
deriving DecidableEq, Repr

/-- The external `SchedulerClass.from_config(config)` class method of diffusers:
a deterministic constructor building a scheduler instance of the named class
from a configuration. -/
def SchedulerClass.from_config (cls : String) (config : SchedulerConfig) : SchedulerInstance :=
  { cls := cls, config := config }

/-- A two-dimensional numpy array, tracked by shape only: the code only ever
takes the alpha-channel slice `image_data[:, :, 3]` of the canvas and feeds it
to `PIL.Image.fromarray`, which reads off its shape. -/
structure NpArray where
  rows : Nat
  cols : Nat
deriving DecidableEq, Repr

/-- A PIL image, modelled as the term of image operations that produced it.
Pixel contents of externally produced images are abstracted; the dimensions,
which the claims are about, are computed by `PILImage.width` / `PILImage.height`
below following PIL semantics. -/
inductive PILImage where
  /-- An image loaded from a file or produced by the external pipeline,
  identified by an abstract id, with its pixel width and height. -/
  | source (id : Nat) (width : Nat) (height : Nat)
  /-- `PIL.Image.fromarray(a)` on a 2-d array: width is the column count,
  height the row count. -/
  | fromarray (a : NpArray)
  /-- `im.convert("RGB")`: changes mode, preserves dimensions. -/
  | convertRGB (im : PILImage)
  /-- `im.resize(sz, resample=Image.LANCZOS)`: the result has exactly the
  requested `(width, height)` size; resampled contents are external. -/
  | resize (im : PILImage) (sz : Nat × Nat)
deriving DecidableEq, Repr

/-- The pixel width of a PIL image. -/
def PILImage.width : PILImage → Nat
  | .source _ w _ => w
  | .fromarray a => a.cols
  | .convertRGB im => im.width
  | .resize _ sz => sz.1

/-- The pixel height of a PIL image. -/
def PILImage.height : PILImage → Nat
  | .source _ _ h => h
  | .fromarray a => a.rows
  | .convertRGB im => im.height
  | .resize _ sz => sz.2

/-- PIL `im.size`: the pair `(width, height)`. -/
def PILImage.size (im : PILImage) : Nat × Nat := (im.width, im.height)

/-- A torch random generator as produced by the two branches of
`generate_image`: on mps, `torch.manual_seed(seed)` (the global default
generator); otherwise `torch.Generator(device=...).manual_seed(seed)`. -/
inductive TorchGenerator where
  | manual_seed (seed : Int)
  | device_generator (device : Option String) (seed : Int)
deriving DecidableEq, Repr

/-- The keyword arguments of the external pipeline call
`self.pipeline(prompt=..., ..., width=...)` in `generate_image`. -/
structure PipelineArgs where
  prompt : String
  negative_prompt : String
  image : PILImage
  mask_image : PILImage
  num_inference_steps : Nat
  guidance_scale : Rat
  num_images_per_prompt : Nat
  generator : TorchGenerator
  height : Nat
  width : Nat
deriving DecidableEq, Repr

/-- The metadata dict built in `generate_image` and serialized with
`json.dumps`. `json.dumps` itself is Python stdlib (external) and injective on
these records, so the serialized JSON text is modelled by the record itself,
with the fields in the dict's insertion order. -/
structure MetadataJson where
  prompt : String
  negative_prompt : String
  guidance_scale : Rat
  scheduler : String
  steps : Nat
  seed : Int
deriving DecidableEq, Repr

/-- `PIL.PngImagePlugin.PngInfo`: an ordered collection of text chunks. -/
structure PngInfo where
  texts : List (String × MetadataJson)
deriving DecidableEq, Repr

/-- `PngInfo.add_text(key, value)`. -/
def PngInfo.add_text (p : PngInfo) (key : String) (value : MetadataJson) : PngInfo :=
  { texts := p.texts ++ [(key, value)] }

/-- A PNG file written to disk by `utils.save_images`: the image, the embedded
text chunk (key and JSON payload), and the directory it was written under. -/
structure SavedImage where
  image : PILImage
  text_key : String
  text_value : MetadataJson
  path : Option String
deriving DecidableEq, Repr

/-- Modelled from the spec: `utils.save_images` lives in `diffuzers/utils.py`,
which is not part of this repository snapshot; the spec describes the output as
"PNG images with an embedded text field containing a JSON object of the
generation parameters", "files written under a configured output directory".
So each image is written once, carrying the serialized metadata as its text
chunk keyed by the module name, under the output path. -/
def save_images (images : List PILImage) (module : String) (metadata : MetadataJson)
    (output_path : Option String) : List SavedImage :=
  images.map (fun im =>
    { image := im, text_key := module, text_value := metadata, path := output_path })

/-- Observable side effects of `generate_image` / `app`, in program order. -/
inductive Event where
  /-- `self.pipeline.scheduler = scheduler` inside `_set_scheduler`. -/
  | set_scheduler (s : SchedulerInstance)
  /-- The external inference call `self.pipeline(...)`. -/
  | pipeline_call (args : PipelineArgs)
  /-- The `utils.save_images(...)` call. -/
  | saved_images (files : List SavedImage)
  /-- `torch.cuda.empty_cache()`. -/
  | cuda_empty_cache
  /-- `gc.collect()`. -/
  | gc_collect
deriving DecidableEq, Repr

/-- What the external `StableDiffusionInpaintPipeline.from_pretrained` load
reports at construction time: the scheduler compatibility set (class names, in
reported order), the scheduler configuration, and the initially installed
scheduler. -/
structure PipelineHandle where
  compatibles : List String
  config : SchedulerConfig
  init_scheduler : SchedulerInstance
deriving DecidableEq, Repr

/-- The state of an `Inpainting` dataclass instance after `__post_init__`:
the three configuration fields, plus the attributes `__post_init__` sets
(`self.pipeline.scheduler`, `self._compatible_schedulers`,
`self.scheduler_config`, `self.compatible_schedulers`). The dict
`compatible_schedulers` maps each class `__name__` to its class; since a class
is identified by its name here, the dict is modelled by its key list (insertion
order, first occurrence kept, as Python dicts do). -/
structure Inpainting where
  model : Option String
  device : Option String
  output_path : Option String
  pipeline_scheduler : SchedulerInstance
  compatible_schedulers_raw : List String
  scheduler_config : SchedulerConfig
  compatible_schedulers : List String
deriving DecidableEq, Repr

/-- `Option String` rendered the way a Python f-string renders `None` or a
string value. -/
def optStr : Option String → String
  | none => "None"
  | some s => s

/-- `Inpainting.__str__`. -/
def Inpainting.str (st : Inpainting) : String :=
  "Inpainting(model=" ++ optStr st.model ++ ", device=" ++ optStr st.device ++
    ", output_path=" ++ optStr st.output_path ++ ")"

/-- `Inpainting.__post_init__`, given the configuration fields and what the
external pipeline load reports. Captured here: the pipeline handle is stored,
`self._compatible_schedulers = self.pipeline.scheduler.compatibles`,
`self.scheduler_config = self.pipeline.scheduler.config`, and
`self.compatible_schedulers = {s.__name__: s for s in ...}` (key list with
duplicates dropped, first occurrence kept). The dtype choice, `.to(device)`,
the safety-checker override, attention slicing and the mps warm-up inference
only touch external state and are not observable through the claims. -/
def Inpainting.post_init (model device output_path : Option String)
    (ph : PipelineHandle) : Inpainting :=
  { model := model
    device := device
    output_path := output_path
    pipeline_scheduler := ph.init_scheduler
    compatible_schedulers_raw := ph.compatibles
    scheduler_config := ph.config
    compatible_schedulers := ph.compatibles.dedup }

/-- `Inpainting._set_scheduler`: looks the name up in the
`compatible_schedulers` dict (a missing key raises `KeyError`, carried as the
error value), instantiates the class from the stored configuration and installs
it on the pipeline. -/
def Inpainting._set_scheduler (st : Inpainting) (scheduler_name : String) :
    Except String Inpainting :=
  if scheduler_name ∈ st.compatible_schedulers then
    Except.ok { st with
      pipeline_scheduler := SchedulerClass.from_config scheduler_name st.scheduler_config }
  else
    Except.error scheduler_name

/-- The result of a successful `generate_image` call: the updated instance
state, the side effects in order, and the returned pair
`(output_images, _metadata)` together with the files `utils.save_images`
wrote. -/
structure GenResult where
  state : Inpainting
  events : List Event
  output_images : List PILImage
  metadata : PngInfo
  saved : List SavedImage
deriving DecidableEq, Repr

/-- `Inpainting.generate_image`. The external pipeline is the oracle `pipe`
from call arguments to produced images. Mirrors the source: set the scheduler
(a bad name raises through), build the generator and override `num_images`
on mps, call the pipeline, build the metadata dict, serialize it, wrap it in a
`PngInfo`, save the images, clear caches, return images plus metadata. -/
def Inpainting.generate_image (st : Inpainting) (pipe : PipelineArgs → List PILImage)
    (prompt : String) (negative_prompt : String) (image : PILImage) (mask : PILImage)
    (guidance_scale : Rat) (scheduler : String) (steps : Nat) (seed : Int)
    (height : Nat) (width : Nat) (num_images : Nat) : Except String GenResult :=
  match st._set_scheduler scheduler with
  | Except.error k => Except.error k
  | Except.ok st1 =>
    let gn : TorchGenerator × Nat :=
      if st1.device = some "mps" then
        (TorchGenerator.manual_seed seed, 1)
      else
        (TorchGenerator.device_generator st1.device seed, num_images)
    let args : PipelineArgs :=
      { prompt := prompt
        negative_prompt := negative_prompt
        image := image
        mask_image := mask
        num_inference_steps := steps
        guidance_scale := guidance_scale
        num_images_per_prompt := gn.2
        generator := gn.1
        height := height
        width := width }
    let output_images := pipe args
    let metadata : MetadataJson :=
      { prompt := prompt
        negative_prompt := negative_prompt
        guidance_scale := guidance_scale
        scheduler := scheduler
        steps := steps
        seed := seed }
    let png_meta := PngInfo.add_text { texts := [] } "inpainting" metadata
    let files := save_images output_images "inpainting" metadata st1.output_path
    Except.ok
      { state := st1
        events :=
          [Event.set_scheduler st1.pipeline_scheduler,
           Event.pipeline_call args,
           Event.saved_images files,
           Event.cuda_empty_cache,
           Event.gc_collect]
        output_images := output_images
        metadata := png_meta
        saved := files }

/-- The name hoisted to the front of the scheduler list in `app`. -/
def eulerName : String := "EulerAncestralDiscreteScheduler"

/-- The scheduler-list reordering in `app`:
`available_schedulers = list(self.compatible_schedulers.keys())`, then if
`"EulerAncestralDiscreteScheduler"` is present,
`available_schedulers.insert(0, available_schedulers.pop(available_schedulers.index(...)))`.
`pop(index(x))` removes the first occurrence of `x`, and `insert(0, ...)` puts
it at the front. -/
def reorderSchedulers (l : List String) : List String :=
  if eulerName ∈ l then eulerName :: l.erase eulerName else l

/-- The default value of `st.sidebar.selectbox("Scheduler", options, index=0)`:
the option at index 0. -/
def defaultSelection (l : List String) : Option String := l.get? 0

/-- The value of `st_canvas(...).image_data` when it is not `None`: a numpy
array of shape `(rows, cols, 4)` (RGBA). -/
structure CanvasImageData where
  rows : Nat
  cols : Nat
deriving DecidableEq, Repr

/-- The slice `image_data[:, :, 3]` (the alpha channel): a 2-d array with the
same rows and columns. -/
def alphaChannel (cd : CanvasImageData) : NpArray :=
  { rows := cd.rows, cols := cd.cols }

/-- The canvas widget result: `image_data` (possibly `None`) and
`json_data["objects"]`, the list of drawn objects (entries abstracted). -/
structure CanvasResult where
  image_data : Option CanvasImageData
  json_objects : List Nat
deriving DecidableEq, Repr

/-- The widget values `app` reads from streamlit in one run: text areas,
file uploader (the `Image.open(uploaded_file)` result when a file was
uploaded), sidebar sliders, the index of the user's selectbox choice in the
offered scheduler list (0 when untouched), drawing controls, the canvas result
and the Generate button. -/
structure AppInputs where
  prompt : String
  negative_prompt : String
  uploaded_file : Option PILImage
  guidance_scale : Rat
  num_images : Nat
  steps : Nat
  seed : Int
  scheduler_index : Nat
  drawing_mode : String
  stroke_width : Nat
  canvas : CanvasResult
  submit : Bool
deriving DecidableEq, Repr

/-- `Inpainting.app`, one streamlit run with the given widget values. Mirrors
the source: build the reordered scheduler list for the selectbox; if no file is
uploaded, nothing below the uploader renders and nothing happens; otherwise
open and convert the image, unpack `pil_image.size` into
`(img_height, img_width)` as the source does, draw the canvas, and when
`image_data` is present, the object list is non-empty and Generate was pressed,
build the mask from the alpha channel, resize it to `(img_width, img_height)`,
and call `generate_image`, whose exceptions propagate. Returns the updated
state, the side effects, and the displayed `(output_images, metadata)` when
generation ran. -/
def Inpainting.app (st : Inpainting) (pipe : PipelineArgs → List PILImage)
    (inp : AppInputs) :
    Except String (Inpainting × List Event × Option (List PILImage × PngInfo)) :=
  let available_schedulers := reorderSchedulers st.compatible_schedulers
  let scheduler := available_schedulers.get? inp.scheduler_index
  match inp.uploaded_file with
  | none => Except.ok (st, [], none)
  | some f =>
    let pil_image := PILImage.convertRGB f
    let img_height := pil_image.size.1
    let img_width := pil_image.size.2
    match inp.canvas.image_data with
    | none => Except.ok (st, [], none)
    | some cd =>
      if inp.canvas.json_objects.length > 0 ∧ inp.submit = true then
        let mask_npy := alphaChannel cd
        let mask_pil := PILImage.convertRGB (PILImage.fromarray mask_npy)
        let mask_pil2 := PILImage.resize mask_pil (img_width, img_height)
        match scheduler with
        | none => Except.error "None"
        | some sch =>
          match st.generate_image pipe inp.prompt inp.negative_prompt pil_image mask_pil2
              inp.guidance_scale sch inp.steps inp.seed img_height img_width
              inp.num_images with
          | Except.error k => Except.error k
          | Except.ok r => Except.ok (r.state, r.events, some (r.output_images, r.metadata))
      else
        Except.ok (st, [], none)

/-- The arguments of the first `pipeline_call` event in a trace, if any. -/
def pipelineArgsOf : List Event → Option PipelineArgs
  | [] => none
  | Event.pipeline_call a :: _ => some a
  | _ :: es => pipelineArgsOf es

/-- The pipeline-call arguments `generate_image` builds, split by device as in
the source: on mps the global `torch.manual_seed` generator and a single image
per prompt, otherwise a device-bound generator and the supplied count. -/
def expectedArgs (device : Option String) (prompt negative_prompt : String)
    (image mask : PILImage) (guidance_scale : Rat) (steps : Nat) (seed : Int)
    (height width num_images : Nat) : PipelineArgs :=
  { prompt := prompt
    negative_prompt := negative_prompt
    image := image
    mask_image := mask
    num_inference_steps := steps
    guidance_scale := guidance_scale
    num_images_per_prompt := if device = some "mps" then 1 else num_images
    generator := if device = some "mps" then TorchGenerator.manual_seed seed
      else TorchGenerator.device_generator device seed
    height := height
    width := width }

/-- A concrete pipeline-load report used to instantiate the theorems. -/
def samplePH : PipelineHandle :=
  { compatibles := ["PNDMScheduler", "EulerAncestralDiscreteScheduler", "DDIMScheduler"]
    config := { raw := 7 }
    init_scheduler := { cls := "PNDMScheduler", config := { raw := 7 } } }

/-- A concrete instance on a cuda device. -/
def sampleState : Inpainting :=
  Inpainting.post_init (some "runwayml/stable-diffusion-inpainting") (some "cuda")
    (some "outputs") samplePH

/-- A concrete instance on an mps device. -/
def mpsState : Inpainting :=
  Inpainting.post_init (some "runwayml/stable-diffusion-inpainting") (some "mps")
    (some "outputs") samplePH

/-- A concrete pipeline oracle: two images of the requested dimensions. -/
def samplePipe : PipelineArgs → List PILImage :=
  fun a => [PILImage.source 100 a.width a.height, PILImage.source 101 a.width a.height]

/-- `app` inputs exhibiting the mask-resize dimension swap: a non-square
512x768 upload, a drawn object on the canvas, and Generate pressed. -/
def maskBugInput : AppInputs :=
  { prompt := "a cat"
    negative_prompt := ""
    uploaded_file := some (PILImage.source 0 512 768)
    guidance_scale := (15 / 2 : Rat)
    num_images := 1
    steps := 50
    seed := 42
    scheduler_index := 0
    drawing_mode := "freedraw"
    stroke_width := 8
    canvas := { image_data := some { rows := 768, cols := 768 }, json_objects := [1] }
    submit := true }

/-- `app` inputs where Generate is pressed but the canvas has no drawn
objects. -/
def emptyCanvasInput : AppInputs :=
  { maskBugInput with
    canvas := { image_data := some { rows := 768, cols := 768 }, json_objects := [] } }

/-- The mps `generate_image` call used as the C3 counterexample: the caller
supplies `num_images = 2`. -/
def mpsCallResult : Except String GenResult :=
  mpsState.generate_image samplePipe "a cat" "blurry" (PILImage.source 0 512 512)
    (PILImage.source 1 512 512) (15 / 2 : Rat) "DDIMScheduler" 30 42 512 512 2

/-- A successful `_set_scheduler` returns the input state with only the
pipeline's current scheduler replaced, instantiated from the stored
configuration. -/
theorem lemma_set_ok (st : Inpainting) (n : String) (h : n ∈ st.compatible_schedulers) :
    st._set_scheduler n = Except.ok
      { st with pipeline_scheduler := SchedulerClass.from_config n st.scheduler_config } := by
  simp [Inpainting._set_scheduler, h]

/-- Characterization of a successful `generate_image` call. -/
theorem lemma_gen_ok (st : Inpainting) (pipe : PipelineArgs → List PILImage)
    (prompt negative_prompt : String) (image mask : PILImage)
    (guidance_scale : Rat) (scheduler : String) (steps : Nat) (seed : Int)
    (height width num_images : Nat)
    (h : scheduler ∈ st.compatible_schedulers) :
    st.generate_image pipe prompt negative_prompt image mask guidance_scale scheduler
        steps seed height width num_images = Except.ok
      { state :=
          { st with pipeline_scheduler := SchedulerClass.from_config scheduler st.scheduler_config }
        events :=
          [Event.set_scheduler (SchedulerClass.from_config scheduler st.scheduler_config),
           Event.pipeline_call (expectedArgs st.device prompt negative_prompt image mask
             guidance_scale steps seed height width num_images),
           Event.saved_images (save_images
             (pipe (expectedArgs st.device prompt negative_prompt image mask guidance_scale
               steps seed height width num_images)) "inpainting"
             { prompt := prompt, negative_prompt := negative_prompt,
               guidance_scale := guidance_scale, scheduler := scheduler,
               steps := steps, seed := seed } st.output_path),
           Event.cuda_empty_cache,
           Event.gc_collect]
        output_images := pipe (expectedArgs st.device prompt negative_prompt image mask
          guidance_scale steps seed height width num_images)
        metadata := { texts := [("inpainting",
          { prompt := prompt, negative_prompt := negative_prompt,
            guidance_scale := guidance_scale, scheduler := scheduler,
            steps := steps, seed := seed })] }
        saved := save_images
          (pipe (expectedArgs st.device prompt negative_prompt image mask guidance_scale
            steps seed height width num_images)) "inpainting"
          { prompt := prompt, negative_prompt := negative_prompt,
            guidance_scale := guidance_scale, scheduler := scheduler,
            steps := steps, seed := seed } st.output_path } := by
  rw [Inpainting.generate_image, lemma_set_ok st scheduler h]
  by_cases hd : st.device = some "mps" <;>
    simp [expectedArgs, hd, PngInfo.add_text]

/-- A failed scheduler lookup makes `generate_image` fail with the same key. -/
theorem lemma_gen_error (st : Inpainting) (pipe : PipelineArgs → List PILImage)
    (prompt negative_prompt : String) (image mask : PILImage)
    (guidance_scale : Rat) (scheduler : String) (steps : Nat) (seed : Int)
    (height width num_images : Nat)
    (h : scheduler ∉ st.compatible_schedulers) :
    st.generate_image pipe prompt negative_prompt image mask guidance_scale scheduler
        steps seed height width num_images = Except.error scheduler := by
  rw [Inpainting.generate_image]
  simp [Inpainting._set_scheduler, h]

/-- A successful `generate_image` leaves `model`, `device` and `output_path`
unchanged in the resulting state. -/
theorem lemma_gen_frame (st : Inpainting) (pipe : PipelineArgs → List PILImage)
    (prompt negative_prompt : String) (image mask : PILImage)
    (guidance_scale : Rat) (scheduler : String) (steps : Nat) (seed : Int)
    (height width num_images : Nat) (r : GenResult)
    (h : st.generate_image pipe prompt negative_prompt image mask guidance_scale scheduler
      steps seed height width num_images = Except.ok r) :
    r.state.model = st.model ∧ r.state.device = st.device ∧
      r.state.output_path = st.output_path := by
  by_cases hm : scheduler ∈ st.compatible_schedulers
  · rw [lemma_gen_ok st pipe prompt negative_prompt image mask guidance_scale scheduler
      steps seed height width num_images hm] at h
    injection h with h2
    subst h2
    exact ⟨rfl, rfl, rfl⟩
  · rw [lemma_gen_error st pipe prompt negative_prompt image mask guidance_scale scheduler
      steps seed height width num_images hm] at h
    cases h

/-- A successful `app` run leaves `model`, `device` and `output_path`
unchanged in the resulting state. -/
theorem lemma_app_frame (st : Inpainting) (pipe : PipelineArgs → List PILImage)
    (inp : AppInputs) (st2 : Inpainting) (evs : List Event)
    (out : Option (List PILImage × PngInfo))
    (h : st.app pipe inp = Except.ok (st2, evs, out)) :
    st2.model = st.model ∧ st2.device = st.device ∧
      st2.output_path = st.output_path := by
  simp only [Inpainting.app] at h
  split at h
  · simp only [Except.ok.injEq, Prod.mk.injEq] at h
    obtain ⟨rfl, -, -⟩ := h
    exact ⟨rfl, rfl, rfl⟩
  · split at h
    · simp only [Except.ok.injEq, Prod.mk.injEq] at h
      obtain ⟨rfl, -, -⟩ := h
      exact ⟨rfl, rfl, rfl⟩
    · split at h
      · split at h
        · cases h
        · split at h
          · cases h
          · simp only [Except.ok.injEq, Prod.mk.injEq] at h
            obtain ⟨rfl, -, -⟩ := h
            rename_i hr
            exact lemma_gen_frame _ _ _ _ _ _ _ _ _ _ _ _ _ _ hr
      · simp only [Except.ok.injEq, Prod.mk.injEq] at h
        obtain ⟨rfl, -, -⟩ := h
        exact ⟨rfl, rfl, rfl⟩

/-- C4: setting the same scheduler name twice in a row leaves the pipeline in
the same state as setting it once: the installed scheduler is a function of
the name and the construction-time configuration only, and `_set_scheduler`
changes nothing else. The same `KeyError` is raised in the failing case. -/
theorem set_scheduler_idempotent (st : Inpainting) (scheduler_name : String) :
    (st._set_scheduler scheduler_name).bind (fun s => s._set_scheduler scheduler_name) =
      st._set_scheduler scheduler_name := by
  by_cases h : scheduler_name ∈ st.compatible_schedulers <;>
    simp [Inpainting._set_scheduler, h, Except.bind]

/-- C6: the configuration fields `model`, `device` and `output_path` are never
modified: `__str__` only reads them, and whenever `_set_scheduler`,
`generate_image` or `app` succeeds, the resulting state carries the same
three values as the initial state. -/
theorem config_fields_immutable (st : Inpainting) (pipe : PipelineArgs → List PILImage)
    (scheduler_name prompt negative_prompt : String) (image mask : PILImage)
    (guidance_scale : Rat) (scheduler : String) (steps : Nat) (seed : Int)
    (height width num_images : Nat) (inp : AppInputs) :
    Inpainting.str st = "Inpainting(model=" ++ optStr st.model ++ ", device=" ++
      optStr st.device ++ ", output_path=" ++ optStr st.output_path ++ ")" ∧
    (st._set_scheduler scheduler_name).map (fun s => (s.model, s.device, s.output_path)) =
      (st._set_scheduler scheduler_name).map (fun _ => (st.model, st.device, st.output_path)) ∧
    (st.generate_image pipe prompt negative_prompt image mask guidance_scale scheduler
        steps seed height width num_images).map
        (fun r => (r.state.model, r.state.device, r.state.output_path)) =
      (st.generate_image pipe prompt negative_prompt image mask guidance_scale scheduler
        steps seed height width num_images).map
        (fun _ => (st.model, st.device, st.output_path)) ∧
    (st.app pipe inp).map (fun t => (t.1.model, t.1.device, t.1.output_path)) =
      (st.app pipe inp).map (fun _ => (st.model, st.device, st.output_path)) := by
  refine ⟨rfl, ?_, ?_, ?_⟩
  · by_cases h : scheduler_name ∈ st.compatible_schedulers <;>
      simp [Inpainting._set_scheduler, h, Except.map]
  · cases hr : st.generate_image pipe prompt negative_prompt image mask guidance_scale
      scheduler steps seed height width num_images with
    | error k => rfl
    | ok r =>
      obtain ⟨h1, h2, h3⟩ := lemma_gen_frame _ _ _ _ _ _ _ _ _ _ _ _ _ _ hr
      simp [Except.map, h1, h2, h3]
  · cases hr : st.app pipe inp with
    | error k => rfl
    | ok t =>
      obtain ⟨st2, evs, out⟩ := t
      obtain ⟨h1, h2, h3⟩ := lemma_app_frame _ _ _ _ _ _ hr
      simp [Except.map, h1, h2, h3]

/-- C1: metadata round-trip. Every successful `generate_image` call returns a
`PngInfo` whose single text chunk, keyed `"inpainting"`, is the JSON record of
the supplied prompt, negative prompt, guidance scale, scheduler name, step
count and seed, and every output image is saved with exactly that same record
embedded as its text field. -/
theorem generate_image_metadata_roundtrip (st : Inpainting)
    (pipe : PipelineArgs → List PILImage)
    (prompt negative_prompt : String) (image mask : PILImage)
    (guidance_scale : Rat) (scheduler : String) (steps : Nat) (seed : Int)
    (height width num_images : Nat)
    (h : scheduler ∈ st.compatible_schedulers) :
    ∃ r : GenResult,
      st.generate_image pipe prompt negative_prompt image mask guidance_scale scheduler
          steps seed height width num_images = Except.ok r ∧
      r.metadata.texts =
        [("inpainting",
          { prompt := prompt, negative_prompt := negative_prompt,
            guidance_scale := guidance_scale, scheduler := scheduler,
            steps := steps, seed := seed })] ∧
      r.saved.map (fun f => f.image) = r.output_images ∧
      ∀ f ∈ r.saved, f.text_key = "inpainting" ∧
        f.text_value =
          { prompt := prompt, negative_prompt := negative_prompt,
            guidance_scale := guidance_scale, scheduler := scheduler,
            steps := steps, seed := seed } := by
  refine ⟨_, lemma_gen_ok st pipe prompt negative_prompt image mask guidance_scale
    scheduler steps seed height width num_images h, rfl, ?_, ?_⟩
  · simp [save_images, Function.comp_def]
  · intro f hf
    simp only [save_images, List.mem_map] at hf
    obtain ⟨im, -, rfl⟩ := hf
    exact ⟨rfl, rfl⟩

/-- C1 witness: a concrete successful call on the cuda instance. -/
theorem generate_image_metadata_roundtrip_witness :
    ∃ r : GenResult,
      sampleState.generate_image samplePipe "a cat" "blurry" (PILImage.source 0 512 512)
          (PILImage.source 1 512 512) (15 / 2 : Rat) "DDIMScheduler" 30 42 512 512 2 =
        Except.ok r ∧
      r.metadata.texts =
        [("inpainting",
          { prompt := "a cat", negative_prompt := "blurry",
            guidance_scale := (15 / 2 : Rat), scheduler := "DDIMScheduler",
            steps := 30, seed := 42 })] ∧
      r.saved.map (fun f => f.image) = r.output_images ∧
      ∀ f ∈ r.saved, f.text_key = "inpainting" ∧
        f.text_value =
          { prompt := "a cat", negative_prompt := "blurry",
            guidance_scale := (15 / 2 : Rat), scheduler := "DDIMScheduler",
            steps := 30, seed := 42 } :=
  generate_image_metadata_roundtrip sampleState samplePipe "a cat" "blurry"
    (PILImage.source 0 512 512) (PILImage.source 1 512 512) (15 / 2 : Rat)
    "DDIMScheduler" 30 42 512 512 2 (by decide)

/-- C3 counterexample: on the mps instance, a call supplying `num_images = 2`
reaches the pipeline with `num_images_per_prompt = 1`, so the supplied image
count is not forwarded unchanged. -/
theorem num_images_not_forwarded_on_mps :
    (mpsCallResult.toOption.bind (fun r => pipelineArgsOf r.events)).map
        (fun a => a.num_images_per_prompt) = some 1 ∧
    (mpsCallResult.toOption.bind (fun r => pipelineArgsOf r.events)).map
        (fun a => a.num_images_per_prompt) ≠ some 2 := by
  constructor <;> decide

/-- C3 (amended): every successful `generate_image` call forwards the supplied
prompt, negative prompt, image, mask, step count, guidance scale, height and
width unchanged to the pipeline call; the image count is forwarded unchanged
except when the device is `"mps"`, where exactly one image per prompt is
requested; the generator is the global one seeded with the supplied seed on
mps, and a device-bound one seeded with the supplied seed otherwise. -/
theorem generate_image_parameter_forwarding (st : Inpainting)
    (pipe : PipelineArgs → List PILImage)
    (prompt negative_prompt : String) (image mask : PILImage)
    (guidance_scale : Rat) (scheduler : String) (steps : Nat) (seed : Int)
    (height width num_images : Nat)
    (h : scheduler ∈ st.compatible_schedulers) :
    ∃ r : GenResult,
      st.generate_image pipe prompt negative_prompt image mask guidance_scale scheduler
          steps seed height width num_images = Except.ok r ∧
      ∃ a : PipelineArgs, pipelineArgsOf r.events = some a ∧
        a.prompt = prompt ∧ a.negative_prompt = negative_prompt ∧ a.image = image ∧
        a.mask_image = mask ∧ a.num_inference_steps = steps ∧
        a.guidance_scale = guidance_scale ∧ a.height = height ∧ a.width = width ∧
        a.num_images_per_prompt = (if st.device = some "mps" then 1 else num_images) ∧
        a.generator = (if st.device = some "mps" then TorchGenerator.manual_seed seed
          else TorchGenerator.device_generator st.device seed) := by
  refine ⟨_, lemma_gen_ok st pipe prompt negative_prompt image mask guidance_scale
    scheduler steps seed height width num_images h, _, rfl, ?_⟩
  simp [expectedArgs]

/-- C3 witness: a concrete successful call on the cuda instance; the image
count 2 and all other parameters arrive at the pipeline unchanged. -/
theorem generate_image_parameter_forwarding_witness :
    ∃ r : GenResult,
      sampleState.generate_image samplePipe "a cat" "blurry" (PILImage.source 0 512 512)
          (PILImage.source 1 512 512) (15 / 2 : Rat) "DDIMScheduler" 30 42 512 512 2 =
        Except.ok r ∧
      ∃ a : PipelineArgs, pipelineArgsOf r.events = some a ∧
        a.prompt = "a cat" ∧ a.negative_prompt = "blurry" ∧
        a.image = PILImage.source 0 512 512 ∧
        a.mask_image = PILImage.source 1 512 512 ∧ a.num_inference_steps = 30 ∧
        a.guidance_scale = (15 / 2 : Rat) ∧ a.height = 512 ∧ a.width = 512 ∧
        a.num_images_per_prompt = (if sampleState.device = some "mps" then 1 else 2) ∧
        a.generator = (if sampleState.device = some "mps" then TorchGenerator.manual_seed 42
          else TorchGenerator.device_generator sampleState.device 42) :=
  generate_image_parameter_forwarding sampleState samplePipe "a cat" "blurry"
    (PILImage.source 0 512 512) (PILImage.source 1 512 512) (15 / 2 : Rat)
    "DDIMScheduler" 30 42 512 512 2 (by decide)

/-- C7: nothing in the module catches an exception. A scheduler name outside
the compatibility set makes `_set_scheduler` fail with the `KeyError` carrying
that name, `generate_image` propagates exactly that failure, and no successful
result — hence no generated or saved image — exists for such a call. -/
theorem invalid_scheduler_error_propagates (st : Inpainting)
    (pipe : PipelineArgs → List PILImage)
    (prompt negative_prompt : String) (image mask : PILImage)
    (guidance_scale : Rat) (scheduler : String) (steps : Nat) (seed : Int)
    (height width num_images : Nat)
    (h : scheduler ∉ st.compatible_schedulers) :
    st._set_scheduler scheduler = Except.error scheduler ∧
    st.generate_image pipe prompt negative_prompt image mask guidance_scale scheduler
        steps seed height width num_images = Except.error scheduler ∧
    ∀ r : GenResult,
      st.generate_image pipe prompt negative_prompt image mask guidance_scale scheduler
        steps seed height width num_images ≠ Except.ok r := by
  have h1 : st._set_scheduler scheduler = Except.error scheduler := by
    simp [Inpainting._set_scheduler, h]
  have h2 := lemma_gen_error st pipe prompt negative_prompt image mask guidance_scale
    scheduler steps seed height width num_images h
  refine ⟨h1, h2, ?_⟩
  intro r hr
  rw [h2] at hr
  cases hr

/-- C7 witness: a concrete call with a name outside the compatibility set. -/
theorem invalid_scheduler_error_propagates_witness :
    sampleState._set_scheduler "NotAScheduler" = Except.error "NotAScheduler" ∧
    sampleState.generate_image samplePipe "a cat" "blurry" (PILImage.source 0 512 512)
        (PILImage.source 1 512 512) (15 / 2 : Rat) "NotAScheduler" 30 42 512 512 2 =
      Except.error "NotAScheduler" ∧
    ∀ r : GenResult,
      sampleState.generate_image samplePipe "a cat" "blurry" (PILImage.source 0 512 512)
        (PILImage.source 1 512 512) (15 / 2 : Rat) "NotAScheduler" 30 42 512 512 2 ≠
      Except.ok r :=
  invalid_scheduler_error_propagates sampleState samplePipe "a cat" "blurry"
    (PILImage.source 0 512 512) (PILImage.source 1 512 512) (15 / 2 : Rat)
    "NotAScheduler" 30 42 512 512 2 (by decide)

/-- C8: on an `"mps"` device every successful `generate_image` call requests
exactly one image per prompt from the pipeline, whatever `num_images` the
caller supplied; on any other device the supplied `num_images` is used. -/
theorem mps_num_images_cap (st : Inpainting)
    (pipe : PipelineArgs → List PILImage)
    (prompt negative_prompt : String) (image mask : PILImage)
    (guidance_scale : Rat) (scheduler : String) (steps : Nat) (seed : Int)
    (height width num_images : Nat)
    (h : scheduler ∈ st.compatible_schedulers) :
    ∃ r : GenResult,
      st.generate_image pipe prompt negative_prompt image mask guidance_scale scheduler
          steps seed height width num_images = Except.ok r ∧
      (pipelineArgsOf r.events).map (fun a => a.num_images_per_prompt) =
        some (if st.device = some "mps" then 1 else num_images) := by
  refine ⟨_, lemma_gen_ok st pipe prompt negative_prompt image mask guidance_scale
    scheduler steps seed height width num_images h, ?_⟩
  simp [expectedArgs, pipelineArgsOf]

/-- C8 witness: on the concrete mps instance with `num_images = 5`, the
pipeline is asked for exactly one image per prompt. -/
theorem mps_num_images_cap_witness :
    ∃ r : GenResult,
      mpsState.generate_image samplePipe "a cat" "blurry" (PILImage.source 0 512 512)
          (PILImage.source 1 512 512) (15 / 2 : Rat) "DDIMScheduler" 30 42 512 512 5 =
        Except.ok r ∧
      (pipelineArgsOf r.events).map (fun a => a.num_images_per_prompt) =
        some (if mpsState.device = some "mps" then 1 else 5) :=
  mps_num_images_cap mpsState samplePipe "a cat" "blurry" (PILImage.source 0 512 512)
    (PILImage.source 1 512 512) (15 / 2 : Rat) "DDIMScheduler" 30 42 512 512 5
    (by decide)

/-- When no file is uploaded, the canvas has no image data, no object is drawn
or Generate was not pressed, `app` changes nothing and performs no side
effect. -/
theorem lemma_app_skip (st : Inpainting) (pipe : PipelineArgs → List PILImage)
    (inp : AppInputs)
    (h : inp.uploaded_file = none ∨ inp.canvas.image_data = none ∨
      inp.canvas.json_objects = [] ∨ inp.submit = false) :
    st.app pipe inp = Except.ok (st, [], none) := by
  rcases h with h | h | h | h
  · simp [Inpainting.app, h]
  · cases hu : inp.uploaded_file <;> simp [Inpainting.app, hu, h]
  · cases hu : inp.uploaded_file <;> cases hc : inp.canvas.image_data <;>
      simp [Inpainting.app, hu, hc, h]
  · cases hu : inp.uploaded_file <;> cases hc : inp.canvas.image_data <;>
      simp [Inpainting.app, hu, hc, h]

/-- Under any failing guard condition, a successful `app` run has an empty
event trace. -/
theorem lemma_app_skip_events (st : Inpainting) (pipe : PipelineArgs → List PILImage)
    (inp : AppInputs)
    (hguard : inp.uploaded_file = none ∨ inp.canvas.image_data = none ∨
      inp.canvas.json_objects = [] ∨ inp.submit = false)
    (st2 : Inpainting) (evs : List Event) (out : Option (List PILImage × PngInfo))
    (happ : st.app pipe inp = Except.ok (st2, evs, out)) : evs = [] := by
  rw [lemma_app_skip st pipe inp hguard] at happ
  simp only [Except.ok.injEq, Prod.mk.injEq] at happ
  exact happ.2.1.symm

/-- C2: evaluated on a non-square 512x768 upload with a drawn mask and
Generate pressed, the mask `app` hands to the pipeline has size `(768, 512)`,
not the source image's `(512, 768)`: the source unpacks `pil_image.size`
(which is `(width, height)`) into `(img_height, img_width)` and then resizes
the mask to `(img_width, img_height)`, swapping the dimensions, contrary to
its own comment "resize mask to match image size". -/
theorem app_mask_resize_swaps_dimensions :
    (maskBugInput.uploaded_file.map (fun f => (PILImage.convertRGB f).size)) =
      some (512, 768) ∧
    ((sampleState.app samplePipe maskBugInput).toOption.bind
        (fun t => pipelineArgsOf t.2.1)).map (fun a => a.mask_image.size) =
      some (768, 512) ∧
    ((sampleState.app samplePipe maskBugInput).toOption.bind
        (fun t => pipelineArgsOf t.2.1)).map (fun a => a.mask_image.size) ≠
      (maskBugInput.uploaded_file.map (fun f => (PILImage.convertRGB f).size)) := by
  refine ⟨rfl, ?_, ?_⟩ <;> decide

/-- C5: the selectable scheduler set is fixed at construction as the key set
of the compatibility dict built from the pipeline's report, and the stored
scheduler configuration is the construction-time one; every successful
`generate_image` call installs the named scheduler instantiated from that
construction-time configuration, does so before the pipeline call (the first
two events, in order), and changes nothing in the instance state except the
pipeline's current scheduler. -/
theorem scheduler_lifecycle (model device output_path : Option String)
    (ph : PipelineHandle) (st : Inpainting) (pipe : PipelineArgs → List PILImage)
    (prompt negative_prompt : String) (image mask : PILImage)
    (guidance_scale : Rat) (scheduler : String) (steps : Nat) (seed : Int)
    (height width num_images : Nat)
    (h : scheduler ∈ st.compatible_schedulers) :
    (Inpainting.post_init model device output_path ph).compatible_schedulers =
      ph.compatibles.dedup ∧
    (Inpainting.post_init model device output_path ph).scheduler_config = ph.config ∧
    ∃ r : GenResult,
      st.generate_image pipe prompt negative_prompt image mask guidance_scale scheduler
          steps seed height width num_images = Except.ok r ∧
      r.state =
        { st with pipeline_scheduler := SchedulerClass.from_config scheduler st.scheduler_config } ∧
      r.state.pipeline_scheduler = SchedulerClass.from_config scheduler st.scheduler_config ∧
      r.state.compatible_schedulers = st.compatible_schedulers ∧
      r.state.scheduler_config = st.scheduler_config ∧
      ∃ a : PipelineArgs,
        r.events.take 2 =
          [Event.set_scheduler (SchedulerClass.from_config scheduler st.scheduler_config),
           Event.pipeline_call a] := by
  refine ⟨rfl, rfl, _, lemma_gen_ok st pipe prompt negative_prompt image mask
    guidance_scale scheduler steps seed height width num_images h,
    rfl, rfl, rfl, rfl, _, rfl⟩

/-- C5 witness: a concrete construction and a concrete successful call. -/
theorem scheduler_lifecycle_witness :
    (Inpainting.post_init (some "runwayml/stable-diffusion-inpainting") (some "cuda")
        (some "outputs") samplePH).compatible_schedulers = samplePH.compatibles.dedup ∧
    (Inpainting.post_init (some "runwayml/stable-diffusion-inpainting") (some "cuda")
        (some "outputs") samplePH).scheduler_config = samplePH.config ∧
    ∃ r : GenResult,
      sampleState.generate_image samplePipe "a cat" "blurry" (PILImage.source 0 512 512)
          (PILImage.source 1 512 512) (15 / 2 : Rat) "DDIMScheduler" 30 42 512 512 2 =
        Except.ok r ∧
      r.state =
        { sampleState with pipeline_scheduler :=
            SchedulerClass.from_config "DDIMScheduler" sampleState.scheduler_config } ∧
      r.state.pipeline_scheduler =
        SchedulerClass.from_config "DDIMScheduler" sampleState.scheduler_config ∧
      r.state.compatible_schedulers = sampleState.compatible_schedulers ∧
      r.state.scheduler_config = sampleState.scheduler_config ∧
      ∃ a : PipelineArgs,
        r.events.take 2 =
          [Event.set_scheduler
             (SchedulerClass.from_config "DDIMScheduler" sampleState.scheduler_config),
           Event.pipeline_call a] :=
  scheduler_lifecycle (some "runwayml/stable-diffusion-inpainting") (some "cuda")
    (some "outputs") samplePH sampleState samplePipe "a cat" "blurry"
    (PILImage.source 0 512 512) (PILImage.source 1 512 512) (15 / 2 : Rat)
    "DDIMScheduler" 30 42 512 512 2 (by decide)

/-- C9: the scheduler list offered by the UI selectbox is a permutation of the
compatibility dict's key list; when `"EulerAncestralDiscreteScheduler"` is
among the keys it is moved to the front (first occurrence removed, reinserted
at index 0) and, the selectbox defaulting to index 0, becomes the default
selection; otherwise the list is unchanged. -/
theorem scheduler_list_reorder (l : List String) :
    (reorderSchedulers l).Perm l ∧
    (eulerName ∈ l → reorderSchedulers l = eulerName :: l.erase eulerName ∧
      defaultSelection (reorderSchedulers l) = some eulerName) ∧
    (eulerName ∉ l → reorderSchedulers l = l) := by
  refine ⟨?_, ?_, ?_⟩
  · by_cases h : eulerName ∈ l
    · rw [reorderSchedulers, if_pos h]
      exact (List.perm_cons_erase h).symm
    · rw [reorderSchedulers, if_neg h]
  · intro h
    rw [reorderSchedulers, if_pos h]
    exact ⟨rfl, rfl⟩
  · intro h
    rw [reorderSchedulers, if_neg h]

/-- C9 witness: both branches at concrete lists — with the Euler ancestral
scheduler present (hoisted to the front and default) and absent (list
unchanged). -/
theorem scheduler_list_reorder_witness :
    (reorderSchedulers ["DDIMScheduler", "EulerAncestralDiscreteScheduler"] =
        eulerName :: ["DDIMScheduler", "EulerAncestralDiscreteScheduler"].erase eulerName ∧
      defaultSelection (reorderSchedulers ["DDIMScheduler", "EulerAncestralDiscreteScheduler"]) =
        some eulerName) ∧
    reorderSchedulers ["DDIMScheduler", "PNDMScheduler"] =
      ["DDIMScheduler", "PNDMScheduler"] :=
  ⟨(scheduler_list_reorder ["DDIMScheduler", "EulerAncestralDiscreteScheduler"]).2.1
      (by decide),
   (scheduler_list_reorder ["DDIMScheduler", "PNDMScheduler"]).2.2 (by decide)⟩

/-- C10: `app` runs inference only when the Generate button was pressed, the
canvas reported image data and at least one object is drawn (with a file
uploaded at all); if any of these fails, the run returns the state unchanged
with no side effects — nothing generated, nothing saved. Conversely a
successful run whose trace contains a pipeline call had a file uploaded,
canvas image data, a non-empty object list and the button pressed. -/
theorem app_empty_canvas_guard (st : Inpainting) (pipe : PipelineArgs → List PILImage)
    (inp : AppInputs) :
    ((inp.uploaded_file = none ∨ inp.canvas.image_data = none ∨
        inp.canvas.json_objects = [] ∨ inp.submit = false) →
      st.app pipe inp = Except.ok (st, [], none)) ∧
    ∀ st2 evs out, st.app pipe inp = Except.ok (st2, evs, out) →
      (pipelineArgsOf evs).isSome = true →
      inp.uploaded_file ≠ none ∧ inp.canvas.image_data ≠ none ∧
      inp.canvas.json_objects ≠ [] ∧ inp.submit = true := by
  refine ⟨lemma_app_skip st pipe inp, ?_⟩
  intro st2 evs out happ hsome
  by_cases hu : inp.uploaded_file = none
  · obtain rfl := lemma_app_skip_events st pipe inp (Or.inl hu) st2 evs out happ
    simp [pipelineArgsOf] at hsome
  by_cases hc : inp.canvas.image_data = none
  · obtain rfl := lemma_app_skip_events st pipe inp (Or.inr (Or.inl hc)) st2 evs out happ
    simp [pipelineArgsOf] at hsome
  by_cases ho : inp.canvas.json_objects = []
  · obtain rfl := lemma_app_skip_events st pipe inp (Or.inr (Or.inr (Or.inl ho))) st2 evs out happ
    simp [pipelineArgsOf] at hsome
  by_cases hs : inp.submit = true
  · exact ⟨hu, hc, ho, hs⟩
  · have hs' : inp.submit = false := by simpa using hs
    obtain rfl := lemma_app_skip_events st pipe inp (Or.inr (Or.inr (Or.inr hs'))) st2 evs out happ
    simp [pipelineArgsOf] at hsome

/-- C10 witness: Generate pressed on a canvas with image data but zero drawn
objects — the state is unchanged and no side effect happens. -/
theorem app_empty_canvas_guard_witness :
    sampleState.app samplePipe emptyCanvasInput =
      Except.ok (sampleState, [], none) :=
  (app_empty_canvas_guard sampleState samplePipe emptyCanvasInput).1 (by decide)

end Diffuzers
